import Mathlib

/-!
Verification of the optimistic-synchronization core of the DIBO cafe admin
console.  The admin screens mutate local React state and propagate each
mutation to a Firestore document store; this file shallowly embeds the
handlers of `ProductsManagement.tsx`, `ReviewsManagement.tsx` and
`Reservation.tsx` as pure Lean functions and proves or refutes the claims
of the specification against them.

Modelling conventions:
* React `useState` lists become explicit `List` arguments and results.
* Every `await` on a Firestore call becomes a `Bool` parameter saying
  whether that remote call succeeded; the handler result records the final
  local state, which remote operations were issued, and an ordered trace of
  local writes and remote calls reflecting the statement order of the
  source.
* Timestamps (`Timestamp | Date | number`) become logical `Nat` clocks; the
  numeric price input becomes an `Int` field (its parse always succeeds in
  the model, the sign check of `validate` is kept).
-/

/-- Events recorded, in program order, by an embedded handler: a write to
local React state, a remote Firestore write (add, update or delete), or a
remote re-fetch of a collection. -/
inductive StoreEv where
  | localWrite
  | remoteWrite
  | remoteFetch
deriving DecidableEq, Repr

/-- Product record, from the `Product` type of `ProductsManagement.tsx`
(id, name, category, price, description, img, createdAt, featured). -/
structure Product where
  id : String
  name : String
  category : String
  price : Int
  description : String
  img : String
  createdAt : Nat
  featured : Bool
deriving DecidableEq, Repr

/-- Review record, from the `Review` interface of `ReviewsManagement.tsx`. -/
structure Review where
  id : String
  name : String
  comment : String
  rating : Nat
  username : Option String
  productName : Option String
  cafeName : Option String
  createdAt : Nat
  featured : Bool
deriving DecidableEq, Repr

/-- Page size constant `PAGE_SIZE = 5` of `ProductsManagement.tsx`. -/
def PAGE_SIZE : Nat := 5

/-- Featured cap constant `MAX_FEATURED = 6` of `ProductsManagement.tsx`. -/
def MAX_FEATURED : Nat := 6

/-- Number of featured products in a local snapshot, as computed by
`products.filter(p => p.featured).length`. -/
def featuredCount (ps : List Product) : Nat :=
  (ps.filter (fun p => p.featured)).length

/-- Number of featured reviews in a local snapshot, as computed by
`reviews.filter(r => r.featured)` in `ReviewsManagement.tsx`. -/
def reviewFeaturedCount (rs : List Review) : Nat :=
  (rs.filter (fun r => r.featured)).length

namespace Products

/-- Result of the `toggleFeatured` handler of `ProductsManagement.tsx`:
final local list, whether the remote update was issued, whether the
featured-limit guard rejected the toggle, and the event trace. -/
structure ToggleResult where
  products : List Product
  remoteIssued : Bool
  rejected : Bool
  trace : List StoreEv
deriving DecidableEq, Repr

/-- Embedding of `toggleFeatured` (ProductsManagement.tsx lines 382-399).
The guard rejects only when the product is being turned on and the current
featured count is already at `MAX_FEATURED`.  Otherwise the handler builds
`updated = { ...product, featured: !product.featured }` from its captured
argument, writes the local list first, then awaits the remote update; the
catch branch only logs and toasts, so a failed remote update leaves the
optimistic local change in place. -/
def toggleFeatured (products : List Product) (product : Product)
    (remoteOk : Bool) : ToggleResult :=
  if !product.featured && decide (featuredCount products ≥ MAX_FEATURED) then
    { products := products, remoteIssued := false, rejected := true, trace := [] }
  else
    let updated : Product := { product with featured := !product.featured }
    let optimistic := products.map (fun p => if p.id = product.id then updated else p)
    if remoteOk then
      { products := optimistic, remoteIssued := true, rejected := false,
        trace := [.localWrite, .remoteWrite] }
    else
      { products := optimistic, remoteIssued := true, rejected := false,
        trace := [.localWrite, .remoteWrite] }

/-- Result of the `handleDelete` handler: final list, whether the remote
delete was issued, and the event trace. -/
structure DeleteResult where
  products : List Product
  remoteIssued : Bool
  trace : List StoreEv
deriving DecidableEq, Repr

/-- Embedding of `handleDelete` (ProductsManagement.tsx lines 291-306).
The pre-mutation snapshot `prevSnapshot = products` is captured, the entity
is removed optimistically, and the catch branch restores exactly that
snapshot when the remote delete fails. -/
def handleDelete (products : List Product) (toDeleteId : Option String)
    (remoteOk : Bool) : DeleteResult :=
  match toDeleteId with
  | none => { products := products, remoteIssued := false, trace := [] }
  | some tid =>
    let optimistic := products.filter (fun p => p.id ≠ tid)
    if remoteOk then
      { products := optimistic, remoteIssued := true,
        trace := [.localWrite, .remoteWrite] }
    else
      { products := products, remoteIssued := true,
        trace := [.localWrite, .remoteWrite, .localWrite] }

/-- Form state of the add/edit modal (name, category, price, description,
img), with the numeric price input modelled as an `Int`. -/
structure FormState where
  name : String
  category : String
  price : Int
  description : String
  img : String
deriving DecidableEq, Repr

/-- Whitespace trim of both ends of a string, the semantics of the
JavaScript `trim()` calls of the source, written over the character list
so that it evaluates by kernel reduction. -/
def trimStr (s : String) : String :=
  ⟨((s.data.dropWhile Char.isWhitespace).reverse.dropWhile Char.isWhitespace).reverse⟩

/-- Embedding of `validate`: name and category are required after trimming
and the price must be non-negative (the NaN check of the source always
passes in the model because the price is already numeric). -/
def validate (form : FormState) : Bool :=
  !(trimStr form.name = "") && !(trimStr form.category = "") && decide (0 ≤ form.price)

/-- Field set `productData` built by `handleSave`: trimmed form fields plus
`createdAt: new Date()` and `featured: false`, used both as the remote
payload and as the spread applied to the local entity. -/
structure ProductData where
  name : String
  category : String
  price : Int
  description : String
  img : String
  createdAt : Nat
  featured : Bool
deriving DecidableEq, Repr

/-- Builds `productData` from the form at save time `now`, exactly as
`handleSave` does: trimmed strings, `createdAt := now`, `featured := false`. -/
def mkProductData (form : FormState) (now : Nat) : ProductData :=
  { name := trimStr form.name, category := trimStr form.category,
    price := form.price, description := trimStr form.description,
    img := trimStr form.img, createdAt := now, featured := false }

/-- Spread `{ ...p, ...productData }`: every field of the payload overrides
the corresponding field of the product; only `id` survives from `p`. -/
def applyProductData (p : Product) (d : ProductData) : Product :=
  { id := p.id, name := d.name, category := d.category, price := d.price,
    description := d.description, img := d.img, createdAt := d.createdAt,
    featured := d.featured }

/-- Product created from the store-assigned id and the payload, as in
`{ id: docRef.id, ...productData }`. -/
def productOfData (newId : String) (d : ProductData) : Product :=
  { id := newId, name := d.name, category := d.category, price := d.price,
    description := d.description, img := d.img, createdAt := d.createdAt,
    featured := d.featured }

/-- Result of `handleSave`: final list, the payload sent remotely (if any
remote write was issued), whether a remote write was issued, and the trace. -/
structure SaveResult where
  products : List Product
  remotePayload : Option ProductData
  remoteIssued : Bool
  trace : List StoreEv
deriving DecidableEq, Repr

/-- Embedding of `handleSave` (ProductsManagement.tsx lines 236-266).
When editing, the local list is updated first with the spread
`{ ...p, ...productData }` and then the remote update is awaited with the
same payload; on failure the catch branch re-fetches the collection
(`refetch` stands for the list produced by that `fetchProducts()` call).
When creating, `addDoc` is awaited first and the new entity is prepended
locally only after the store assigned `newId`. -/
def handleSave (products : List Product) (editing : Option Product)
    (form : FormState) (now : Nat) (newId : String) (remoteOk : Bool)
    (refetch : List Product) : SaveResult :=
  if validate form then
    let productData := mkProductData form now
    match editing with
    | some e =>
      let optimistic :=
        products.map (fun p => if p.id = e.id then applyProductData p productData else p)
      if remoteOk then
        { products := optimistic, remotePayload := some productData,
          remoteIssued := true, trace := [.localWrite, .remoteWrite] }
      else
        { products := refetch, remotePayload := some productData,
          remoteIssued := true, trace := [.localWrite, .remoteWrite, .remoteFetch] }
    | none =>
      if remoteOk then
        { products := productOfData newId productData :: products,
          remotePayload := some productData, remoteIssued := true,
          trace := [.remoteWrite, .localWrite] }
      else
        { products := refetch, remotePayload := some productData,
          remoteIssued := true, trace := [.remoteWrite, .remoteFetch] }
  else
    { products := products, remotePayload := none, remoteIssued := false,
      trace := [] }

end Products

namespace Reviews

/-- Result of the `toggleFeatured` handler of `ReviewsManagement.tsx`. -/
structure ToggleResult where
  reviews : List Review
  remoteIssued : Bool
  rejected : Bool
  trace : List StoreEv
deriving DecidableEq, Repr

/-- Embedding of `toggleFeatured` (ReviewsManagement.tsx lines 76-108).
The guard compares the current featured count against the literal `6`
(while the adjacent comment and the user-facing alert both state a limit
of 3).  When permitted, the remote update is awaited FIRST and the local
list is written only afterwards, so a failed remote update leaves the local
state untouched while a successful one applies
`{ ...r, featured: newFeatured }`. -/
def toggleFeatured (reviews : List Review) (review : Review)
    (remoteOk : Bool) : ToggleResult :=
  let newFeatured := !review.featured
  if newFeatured && decide (reviewFeaturedCount reviews ≥ 6) then
    { reviews := reviews, remoteIssued := false, rejected := true, trace := [] }
  else
    if remoteOk then
      { reviews := reviews.map (fun r =>
          if r.id = review.id then { r with featured := newFeatured } else r),
        remoteIssued := true, rejected := false,
        trace := [.remoteWrite, .localWrite] }
    else
      { reviews := reviews, remoteIssued := true, rejected := false,
        trace := [.remoteWrite] }

end Reviews

namespace ReservationPage

/-- Reservation form data (`ReservationData` of Reservation.tsx). -/
structure ReservationData where
  name : String
  phone : String
  date : String
  time : String
  guests : Nat
deriving DecidableEq, Repr

/-- Stored reservation document: the form fields plus the server
timestamp attached by `addDoc`. -/
structure Reservation where
  name : String
  phone : String
  date : String
  time : String
  guests : Nat
  createdAt : Nat
deriving DecidableEq, Repr

/-- Outcome of `checkAvailability`: the boolean it returns and whether the
reservation collection was actually queried. -/
structure AvailCheck where
  available : Bool
  queried : Bool
deriving DecidableEq, Repr

/-- Embedding of `checkAvailability` (Reservation.tsx lines 57-82).  With
an empty date or time it returns `true` before reaching the query.  The
query filters the reservation collection on an exact (date, time) match
and availability is `snapshot.empty`; the catch branch returns `false`,
the same boolean the function returns for an occupied slot. -/
def checkAvailability (store : List Reservation) (queryFail : Bool)
    (fd : ReservationData) : AvailCheck :=
  if fd.date = "" ∨ fd.time = "" then
    { available := true, queried := false }
  else if queryFail then
    { available := false, queried := true }
  else
    { available := (store.filter (fun r => r.date = fd.date ∧ r.time = fd.time)).isEmpty,
      queried := true }

/-- Result of `handleSubmit`: whether the `addDoc` create was issued,
whether the success banner was shown, whether an error banner was shown,
the resulting reservation collection and the resulting form state. -/
structure SubmitResult where
  createIssued : Bool
  submitted : Bool
  errorShown : Bool
  store : List Reservation
  formData : ReservationData
deriving DecidableEq, Repr

/-- Form reset value used after a successful submission. -/
def emptyForm : ReservationData :=
  { name := "", phone := "", date := "", time := "", guests := 1 }

/-- Embedding of `handleSubmit` (Reservation.tsx lines 87-137).  It awaits
`checkAvailability`; on `false` it shows the occupied-slot error and
returns before any create.  Otherwise it issues the `addDoc` create; on
success the document is stored and the form is reset, on failure an error
banner is shown and the local form is kept. -/
def handleSubmit (store : List Reservation) (queryFail : Bool)
    (createOk : Bool) (fd : ReservationData) (now : Nat) : SubmitResult :=
  let avail := checkAvailability store queryFail fd
  if avail.available then
    if createOk then
      { createIssued := true, submitted := true, errorShown := false,
        store := store ++ [{ name := fd.name, phone := fd.phone, date := fd.date,
                             time := fd.time, guests := fd.guests, createdAt := now }],
        formData := emptyForm }
    else
      { createIssued := true, submitted := false, errorShown := true,
        store := store, formData := fd }
  else
    { createIssued := false, submitted := false, errorShown := true,
      store := store, formData := fd }

end ReservationPage

namespace Paginator

/-- Query ordering used by `fetchProducts` and `loadMore`: the source
requests `orderBy("createdAt", "desc")`; ties are modelled from the spec
(the external store, not part of this repository, decides them): entities
sharing a `createdAt` are ordered by `id` ascending. -/
def pageOrdR (a b : Product) : Prop :=
  b.createdAt < a.createdAt ∨ (a.createdAt = b.createdAt ∧ a.id ≤ b.id)

instance : DecidableRel pageOrdR := fun a b => by
  unfold pageOrdR; infer_instance

instance : IsTotal Product pageOrdR := by
  constructor
  intro a b
  rcases Nat.lt_trichotomy a.createdAt b.createdAt with h | h | h
  · exact Or.inr (Or.inl h)
  · rcases le_total a.id b.id with hid | hid
    · exact Or.inl (Or.inr ⟨h, hid⟩)
    · exact Or.inr (Or.inr ⟨h.symm, hid⟩)
  · exact Or.inl (Or.inl h)

instance : IsTrans Product pageOrdR := by
  constructor
  intro a b c hab hbc
  rcases hab with hab | ⟨hab, hab2⟩ <;> rcases hbc with hbc | ⟨hbc, hbc2⟩
  · exact Or.inl (hbc.trans hab)
  · exact Or.inl (hbc ▸ hab)
  · exact Or.inl (hab ▸ hbc)
  · exact Or.inr ⟨hab.trans hbc, hab2.trans hbc2⟩

/-- Remote collection in query order: the store serves pages of the
collection sorted by `pageOrdR`. -/
def sortProducts (coll : List Product) : List Product :=
  coll.insertionSort pageOrdR

/-- Paginator state: the accumulated local list (`products`) and the
cursor (`lastDoc`), modelled as the index of the last-seen document in the
query order, `none` when the cursor is exhausted (`lastDoc = null`). -/
structure PagState where
  products : List Product
  lastIdx : Option Nat
deriving DecidableEq, Repr

/-- Embedding of `fetchProducts` (ProductsManagement.tsx lines 125-136):
fetch the first `PAGE_SIZE` documents in query order, replace the
accumulated list, and set `lastDoc` to the last returned document (null
when the snapshot is empty). -/
def fetchProducts (coll : List Product) : PagState :=
  let items := (sortProducts coll).take PAGE_SIZE
  { products := items,
    lastIdx := if items.length = 0 then none else some (items.length - 1) }

/-- Embedding of `loadMore` (ProductsManagement.tsx lines 163-187): return
immediately when the cursor is exhausted (`if (!lastDoc) return`);
otherwise query the next `PAGE_SIZE` documents strictly after the cursor
position; a non-empty snapshot is appended and advances the cursor, an
empty snapshot sets the cursor to null. -/
def loadMore (coll : List Product) (st : PagState) : PagState :=
  match st.lastIdx with
  | none => st
  | some i =>
    let items := ((sortProducts coll).drop (i + 1)).take PAGE_SIZE
    if items.isEmpty then
      { products := st.products, lastIdx := none }
    else
      { products := st.products ++ items, lastIdx := some (i + items.length) }

/-- Repeated `loadMore` calls (the load-more button) until the cursor is
exhausted or the fuel runs out. -/
def loadMoreRepeat (coll : List Product) : Nat → PagState → PagState
  | 0, st => st
  | fuel + 1, st =>
    match st.lastIdx with
    | none => st
    | some _ => loadMoreRepeat coll fuel (loadMore coll st)

end Paginator

/-- Concrete product fixture: a product with the given id, createdAt and
featured flag and neutral remaining fields. -/
def mkProd (i : String) (ca : Nat) (f : Bool) : Product :=
  { id := i, name := "", category := "", price := 0, description := "",
    img := "", createdAt := ca, featured := f }

/-- Concrete review fixture. -/
def mkReview (i : String) (f : Bool) : Review :=
  { id := i, name := "", comment := "", rating := 5, username := none,
    productName := none, cafeName := none, createdAt := 0, featured := f }

/-- Concrete 12-entity collection matching the page-size-5 scenario of the
spec; all createdAt values are distinct so the query order is unambiguous. -/
def coll12 : List Product :=
  [mkProd "p01" 12 false, mkProd "p02" 11 false, mkProd "p03" 10 false,
   mkProd "p04" 9 false, mkProd "p05" 8 false, mkProd "p06" 7 false,
   mkProd "p07" 6 false, mkProd "p08" 5 false, mkProd "p09" 4 false,
   mkProd "p10" 3 false, mkProd "p11" 2 false, mkProd "p12" 1 false]

/-- Concrete valid form for the save handler. -/
def formOk : Products.FormState :=
  { name := "n", category := "c", price := 3, description := "", img := "" }

/-- Repeated loads starting from an exhausted cursor change nothing. -/
lemma loadMoreRepeat_none (coll : List Product) (fuel : Nat) (ps : List Product) :
    Paginator.loadMoreRepeat coll fuel ⟨ps, none⟩ = ⟨ps, none⟩ := by
  cases fuel <;> rfl

/-- Main pagination invariant: if the accumulated list is exactly the first
`i + 1` entities of the query order and the cursor sits at index `i`, then
enough further loads deliver the whole collection and exhaust the cursor. -/
lemma loadMoreRepeat_complete (coll : List Product) :
    ∀ (fuel : Nat) (i : Nat) (acc : List Product),
      acc = (Paginator.sortProducts coll).take (i + 1) →
      i < (Paginator.sortProducts coll).length →
      (Paginator.sortProducts coll).length - i ≤ fuel →
      Paginator.loadMoreRepeat coll fuel ⟨acc, some i⟩ =
        ⟨Paginator.sortProducts coll, none⟩ := by
  intro fuel
  induction fuel with
  | zero => intro i acc _ hi hfuel; omega
  | succ f ih =>
    intro i acc hacc hi hfuel
    have hstep : Paginator.loadMoreRepeat coll (f + 1) ⟨acc, some i⟩ =
        Paginator.loadMoreRepeat coll f (Paginator.loadMore coll ⟨acc, some i⟩) := rfl
    rw [hstep]
    by_cases hempty :
        (((Paginator.sortProducts coll).drop (i + 1)).take PAGE_SIZE).isEmpty = true
    · have hnil := List.isEmpty_iff.mp hempty
      have hlm : Paginator.loadMore coll ⟨acc, some i⟩ = ⟨acc, none⟩ := by
        simp [Paginator.loadMore, hempty]
      have hlen : (Paginator.sortProducts coll).length ≤ i + 1 := by
        have h0 : (((Paginator.sortProducts coll).drop (i + 1)).take PAGE_SIZE).length = 0 := by
          rw [hnil]; rfl
        rw [List.length_take, List.length_drop] at h0
        have h5 : (0 : Nat) < PAGE_SIZE := by decide
        omega
      rw [hlm, loadMoreRepeat_none]
      have : acc = Paginator.sortProducts coll := by
        rw [hacc, List.take_of_length_le hlen]
      rw [this]
    · set s := Paginator.sortProducts coll with hs
      set items := (s.drop (i + 1)).take PAGE_SIZE with hitems
      have hlenitems : items.length = min PAGE_SIZE (s.length - (i + 1)) := by
        rw [hitems, List.length_take, List.length_drop]
      have hpos : 0 < items.length := by
        rcases Nat.eq_zero_or_pos items.length with h0 | h0
        · exact absurd (List.isEmpty_iff.mpr (List.length_eq_zero.mp h0)) hempty
        · exact h0
      have hi1 : i + 1 < s.length := by
        have h5 : (0 : Nat) < PAGE_SIZE := by decide
        omega
      have hlm : Paginator.loadMore coll ⟨acc, some i⟩ =
          ⟨acc ++ items, some (i + items.length)⟩ := by
        simp only [Paginator.loadMore, ← hs, ← hitems]
        rw [if_neg (by simp [hempty])]
      rw [hlm]
      apply ih
      · rw [hacc]
        have h1 : i + items.length + 1 = (i + 1) + items.length := by omega
        rw [h1, List.take_add s (i + 1) items.length]
        congr 1
        rw [hitems]
        apply (List.take_eq_take).mpr
        rw [List.length_take, List.length_drop]
        omega
      · omega
      · omega

/-- Setting the featured flag of one listed, currently unfeatured product
raises the featured count by exactly one (ids are unique in a collection). -/
lemma featuredCount_set_featured (p : Product) :
    ∀ ps : List Product, (ps.map (fun q => q.id)).Nodup → p ∈ ps → p.featured = false →
      featuredCount (ps.map (fun q =>
        if q.id = p.id then { p with featured := true } else q)) = featuredCount ps + 1 := by
  intro ps
  induction ps with
  | nil => intro _ hmem _; cases hmem
  | cons x t ih =>
    intro hnd hmem hf
    rw [List.map_cons, List.nodup_cons] at hnd
    obtain ⟨hxnot, hndt⟩ := hnd
    rcases List.mem_cons.mp hmem with rfl | hmt
    · have hmap : t.map (fun q => if q.id = p.id then { p with featured := true } else q)
          = t := by
        calc t.map (fun q => if q.id = p.id then { p with featured := true } else q)
            = t.map id := by
              apply List.map_congr_left
              intro q hq
              have hqid : q.id ≠ p.id := by
                intro h
                exact hxnot (h ▸ List.mem_map_of_mem (fun q => q.id) hq)
              simp [hqid]
          _ = t := List.map_id t
      simp [featuredCount, List.filter_cons, hf, hmap]
    · have hpid : p.id ∈ t.map (fun q => q.id) :=
        List.mem_map_of_mem (fun q => q.id) hmt
      have hxid : x.id ≠ p.id := fun h => hxnot (h ▸ hpid)
      have hstep := ih hndt hmt hf
      rw [List.map_cons, if_neg hxid]
      by_cases hx : x.featured = true
      · simp only [featuredCount, List.filter_cons, hx, if_pos, List.length_cons]
        simp only [featuredCount] at hstep
        omega
      · simp only [featuredCount, List.filter_cons, hx, if_neg, Bool.false_eq_true,
          ite_false]
        simp only [featuredCount] at hstep
        omega

/-- C1 (counterexample): a featured toggle whose remote commit fails does
NOT restore the pre-mutation state: toggling the single unfeatured product
with a failing commit leaves the optimistic `featured := true` in place,
so the visible state after failure differs from the pre-mutation snapshot. -/
theorem c1_toggle_failure_keeps_optimistic_state :
    (Products.toggleFeatured [mkProd "p1" 1 false] (mkProd "p1" 1 false) false).products
        = [mkProd "p1" 1 true] ∧
    (Products.toggleFeatured [mkProd "p1" 1 false] (mkProd "p1" 1 false) false).products
        ≠ [mkProd "p1" 1 false] := by
  decide

/-- C1 (amended): the delete handler does restore the captured snapshot
exactly when the remote delete fails, but the featured toggle performs no
rollback at all: its local result after a failed commit is identical to its
local result after a successful one (the optimistic change persists). -/
theorem c1_rollback_delete_only :
    (∀ (ps : List Product) (tid : String),
      (Products.handleDelete ps (some tid) false).products = ps) ∧
    (∀ (ps : List Product) (p : Product),
      (Products.toggleFeatured ps p false).products =
        (Products.toggleFeatured ps p true).products) := by
  constructor
  · intro ps tid; rfl
  · intro ps p
    unfold Products.toggleFeatured
    split <;> rfl

/-- C2 (counterexample): editing a product overwrites its createdAt.  The
product was created at time 5; saving an edit at time 10 with a successful
commit leaves the local entity with createdAt 10, and the field set sent to
the remote update also carries createdAt 10. -/
theorem c2_update_changes_createdAt :
    ((Products.handleSave [mkProd "p1" 5 true] (some (mkProd "p1" 5 true))
        formOk 10 "x" true []).products.map (fun p => p.createdAt) = [10]) ∧
    ((Products.handleSave [mkProd "p1" 5 true] (some (mkProd "p1" 5 true))
        formOk 10 "x" true []).remotePayload.map (fun d => d.createdAt) = some 10) ∧
    (mkProd "p1" 5 true).createdAt = 5 := by
  decide

/-- C2 (amended): every update performed through `handleSave` overwrites
the createdAt of the target entity with the save-time timestamp, both in the
locally visible state and in the field set sent to the remote update. -/
theorem c2_update_overwrites_createdAt :
    ∀ (ps : List Product) (e : Product) (form : Products.FormState) (now : Nat)
      (newId : String) (refetch : List Product),
      Products.validate form = true →
      ((Products.handleSave ps (some e) form now newId true refetch).remotePayload.map
          (fun d => d.createdAt) = some now) ∧
      (∀ p ∈ (Products.handleSave ps (some e) form now newId true refetch).products,
        p.id = e.id → p.createdAt = now) := by
  intro ps e form now newId refetch hval
  have hred : Products.handleSave ps (some e) form now newId true refetch =
      { products := ps.map (fun p => if p.id = e.id
            then Products.applyProductData p (Products.mkProductData form now) else p),
        remotePayload := some (Products.mkProductData form now),
        remoteIssued := true, trace := [.localWrite, .remoteWrite] } := by
    unfold Products.handleSave
    rw [if_pos hval]
    rfl
  rw [hred]
  constructor
  · rfl
  · intro p hp hpid
    simp only [List.mem_map] at hp
    obtain ⟨x, _, rfl⟩ := hp
    by_cases hid : x.id = e.id
    · simp [hid, Products.applyProductData, Products.mkProductData]
    · rw [if_neg hid] at hpid ⊢
      exact absurd hpid hid

/-- C2 (witness): the amended claim evaluated on the concrete edit of a
product created at time 5 and saved at time 10. -/
theorem c2_update_overwrites_createdAt_witness :
    ((Products.handleSave [mkProd "p1" 5 true] (some (mkProd "p1" 5 true))
        formOk 10 "y" true []).remotePayload.map (fun d => d.createdAt) = some 10) ∧
    (∀ p ∈ (Products.handleSave [mkProd "p1" 5 true] (some (mkProd "p1" 5 true))
        formOk 10 "y" true []).products, p.id = (mkProd "p1" 5 true).id →
      p.createdAt = 10) :=
  c2_update_overwrites_createdAt [mkProd "p1" 5 true] (mkProd "p1" 5 true)
    formOk 10 "y" [] (by decide)
/-- C3 (code bug): in the reviews screen the guard compares against 6, not
3, although the adjacent comment states a maximum of 3 and the user-facing
alert says only 3 featured reviews are allowed.  With exactly 3 reviews
already featured, toggling a fourth unfeatured review is permitted, the
remote update is issued, and the snapshot ends with 4 featured reviews. -/
theorem c3_reviews_limit_is_six_not_three :
    (Reviews.toggleFeatured
        [mkReview "r1" true, mkReview "r2" true, mkReview "r3" true, mkReview "r4" false]
        (mkReview "r4" false) true).rejected = false ∧
    (Reviews.toggleFeatured
        [mkReview "r1" true, mkReview "r2" true, mkReview "r3" true, mkReview "r4" false]
        (mkReview "r4" false) true).remoteIssued = true ∧
    reviewFeaturedCount (Reviews.toggleFeatured
        [mkReview "r1" true, mkReview "r2" true, mkReview "r3" true, mkReview "r4" false]
        (mkReview "r4" false) true).reviews = 4 := by
  decide

/-- C4 (confirmed): for each screen, turning the flag off is always
permitted; turning it on is rejected exactly when the current snapshot
already holds at least the limit (MAX_FEATURED = 6 for products, the
literal 6 for reviews), and a rejection performs no local and no remote
mutation. -/
theorem c4_try_set_featured_guard :
    (∀ (ps : List Product) (p : Product) (ok : Bool),
      (p.featured = true → (Products.toggleFeatured ps p ok).rejected = false) ∧
      (p.featured = false →
        ((Products.toggleFeatured ps p ok).rejected = true ↔
          featuredCount ps ≥ MAX_FEATURED)) ∧
      ((Products.toggleFeatured ps p ok).rejected = true →
        (Products.toggleFeatured ps p ok).products = ps ∧
        (Products.toggleFeatured ps p ok).remoteIssued = false)) ∧
    (∀ (rs : List Review) (r : Review) (ok : Bool),
      (r.featured = true → (Reviews.toggleFeatured rs r ok).rejected = false) ∧
      (r.featured = false →
        ((Reviews.toggleFeatured rs r ok).rejected = true ↔
          reviewFeaturedCount rs ≥ 6)) ∧
      ((Reviews.toggleFeatured rs r ok).rejected = true →
        (Reviews.toggleFeatured rs r ok).reviews = rs ∧
        (Reviews.toggleFeatured rs r ok).remoteIssued = false)) := by
  constructor
  · intro ps p ok
    refine ⟨?_, ?_, ?_⟩
    · intro hf
      unfold Products.toggleFeatured
      rw [hf]
      cases ok <;> rfl
    · intro hf
      unfold Products.toggleFeatured
      rw [hf]
      by_cases hc : featuredCount ps ≥ MAX_FEATURED
      · simp [hc]
      · cases ok <;> simp [hc]
    · intro hrej
      unfold Products.toggleFeatured at hrej ⊢
      by_cases hg : (!p.featured && decide (featuredCount ps ≥ MAX_FEATURED)) = true
      · rw [if_pos hg]
        exact ⟨rfl, rfl⟩
      · rw [if_neg hg] at hrej
        cases ok <;> simp at hrej
  · intro rs r ok
    refine ⟨?_, ?_, ?_⟩
    · intro hf
      unfold Reviews.toggleFeatured
      rw [hf]
      cases ok <;> rfl
    · intro hf
      unfold Reviews.toggleFeatured
      rw [hf]
      by_cases hc : reviewFeaturedCount rs ≥ 6
      · simp [hc]
      · cases ok <;> simp [hc]
    · intro hrej
      unfold Reviews.toggleFeatured at hrej ⊢
      by_cases hg : (!r.featured && decide (reviewFeaturedCount rs ≥ 6)) = true
      · rw [if_pos hg]
        exact ⟨rfl, rfl⟩
      · rw [if_neg hg] at hrej
        cases ok <;> simp at hrej

/-- C4 (witness): with six featured products, toggling a seventh unfeatured
product is rejected with no local and no remote mutation. -/
theorem c4_try_set_featured_guard_witness :
    (Products.toggleFeatured
        [mkProd "q1" 1 true, mkProd "q2" 2 true, mkProd "q3" 3 true,
         mkProd "q4" 4 true, mkProd "q5" 5 true, mkProd "q6" 6 true,
         mkProd "q7" 7 false] (mkProd "q7" 7 false) true).rejected = true ∧
    (Products.toggleFeatured
        [mkProd "q1" 1 true, mkProd "q2" 2 true, mkProd "q3" 3 true,
         mkProd "q4" 4 true, mkProd "q5" 5 true, mkProd "q6" 6 true,
         mkProd "q7" 7 false] (mkProd "q7" 7 false) true).products =
      [mkProd "q1" 1 true, mkProd "q2" 2 true, mkProd "q3" 3 true,
       mkProd "q4" 4 true, mkProd "q5" 5 true, mkProd "q6" 6 true,
       mkProd "q7" 7 false] ∧
    (Products.toggleFeatured
        [mkProd "q1" 1 true, mkProd "q2" 2 true, mkProd "q3" 3 true,
         mkProd "q4" 4 true, mkProd "q5" 5 true, mkProd "q6" 6 true,
         mkProd "q7" 7 false] (mkProd "q7" 7 false) true).remoteIssued = false := by
  have h := c4_try_set_featured_guard.1
    [mkProd "q1" 1 true, mkProd "q2" 2 true, mkProd "q3" 3 true,
     mkProd "q4" 4 true, mkProd "q5" 5 true, mkProd "q6" 6 true,
     mkProd "q7" 7 false] (mkProd "q7" 7 false) true
  have hrej := (h.2.1 (by decide)).mpr (by decide)
  exact ⟨hrej, (h.2.2 hrej).1, (h.2.2 hrej).2⟩

/-- C5 (counterexample): with page size 5 and the 12-entity collection, the
second `loadMore` query returns only 2 entities (fewer than the page size),
yet the cursor is NOT exhausted: it advances to index 11, so a third
`loadMore` is still issued against the store.  The claim that the cursor
becomes exhausted exactly when a query returns fewer than `pageSize`
entities is therefore false. -/
theorem c5_short_page_keeps_cursor_live :
    (((Paginator.sortProducts coll12).drop 10).take PAGE_SIZE).length = 2 ∧
    2 < PAGE_SIZE ∧
    (Paginator.loadMore coll12 (Paginator.loadMore coll12
        (Paginator.fetchProducts coll12))).lastIdx = some 11 := by
  decide

/-- C5 (amended): the cursor becomes exhausted exactly when a page query
returns zero entities; `loadMore` on an exhausted cursor returns the state
unchanged without querying; and in the page-size-5, 12-entity scenario the
first load returns 5 with a live cursor, two further loads return 5 then 2
with the cursor still live, and only the next load observes an empty page
and exhausts the cursor. -/
theorem c5_cursor_exhaustion :
    (∀ (coll ps : List Product) (i : Nat),
      (Paginator.loadMore coll ⟨ps, some i⟩).lastIdx = none ↔
        ((Paginator.sortProducts coll).drop (i + 1)).take PAGE_SIZE = []) ∧
    (∀ (coll : List Product) (st : Paginator.PagState),
      st.lastIdx = none → Paginator.loadMore coll st = st) ∧
    ((Paginator.fetchProducts coll12).products.length = 5 ∧
      (Paginator.fetchProducts coll12).lastIdx = some 4 ∧
      (Paginator.loadMore coll12 (Paginator.fetchProducts coll12)).products.length = 10 ∧
      (Paginator.loadMore coll12 (Paginator.fetchProducts coll12)).lastIdx = some 9 ∧
      (Paginator.loadMore coll12 (Paginator.loadMore coll12
          (Paginator.fetchProducts coll12))).products.length = 12 ∧
      (Paginator.loadMore coll12 (Paginator.loadMore coll12
          (Paginator.fetchProducts coll12))).lastIdx = some 11 ∧
      (Paginator.loadMore coll12 (Paginator.loadMore coll12 (Paginator.loadMore coll12
          (Paginator.fetchProducts coll12)))).products.length = 12 ∧
      (Paginator.loadMore coll12 (Paginator.loadMore coll12 (Paginator.loadMore coll12
          (Paginator.fetchProducts coll12)))).lastIdx = none) := by
  refine ⟨?_, ?_, by decide⟩
  · intro coll ps i
    unfold Paginator.loadMore
    by_cases h : (((Paginator.sortProducts coll).drop (i + 1)).take PAGE_SIZE).isEmpty = true
    · simp only [h, if_true]
      exact ⟨fun _ => List.isEmpty_iff.mp h, fun _ => trivial⟩
    · simp only [h, if_false]
      constructor
      · intro hcontra; cases hcontra
      · intro hnil
        exact absurd (List.isEmpty_iff.mpr hnil) h
  · intro coll st h
    unfold Paginator.loadMore
    cases st with
    | mk ps li =>
      cases li with
      | none => rfl
      | some i => cases h

/-- C5 (witness): the general exhaustion characterisation evaluated on the
12-entity collection at cursor index 11, where the next query is empty and
the cursor is exhausted. -/
theorem c5_cursor_exhaustion_witness :
    (Paginator.loadMore coll12 ⟨(Paginator.sortProducts coll12).take 12, some 11⟩).lastIdx
        = none ∧
    (Paginator.loadMore coll12 ⟨[], none⟩ = ⟨[], none⟩) := by
  constructor
  · exact (c5_cursor_exhaustion.1 coll12 ((Paginator.sortProducts coll12).take 12) 11).mpr
      (by decide)
  · exact c5_cursor_exhaustion.2.1 coll12 ⟨[], none⟩ rfl

/-- C6 (confirmed): loading the first page and then loading more until the
cursor is exhausted accumulates every entity of the collection exactly once
(the accumulated list is a permutation of the collection) in query order:
descending createdAt, ties broken by ascending id. -/
theorem c6_pagination_totality :
    ∀ coll : List Product,
      ((Paginator.loadMoreRepeat coll coll.length
          (Paginator.fetchProducts coll)).products).Perm coll ∧
      ((Paginator.loadMoreRepeat coll coll.length
          (Paginator.fetchProducts coll)).products).Pairwise
        (fun a b => b.createdAt < a.createdAt ∨
          (a.createdAt = b.createdAt ∧ a.id ≤ b.id)) ∧
      (Paginator.loadMoreRepeat coll coll.length
          (Paginator.fetchProducts coll)).lastIdx = none := by
  intro coll
  have hperm : (Paginator.sortProducts coll).Perm coll :=
    List.perm_insertionSort Paginator.pageOrdR coll
  have hsorted : List.Sorted Paginator.pageOrdR (Paginator.sortProducts coll) :=
    List.sorted_insertionSort Paginator.pageOrdR coll
  have hlen : (Paginator.sortProducts coll).length = coll.length := hperm.length_eq
  have hfinal : Paginator.loadMoreRepeat coll coll.length (Paginator.fetchProducts coll)
      = ⟨Paginator.sortProducts coll, none⟩ := by
    by_cases h0 : (Paginator.sortProducts coll).length = 0
    · have hnil : Paginator.sortProducts coll = [] := List.length_eq_zero.mp h0
      have hfetch : Paginator.fetchProducts coll = ⟨[], none⟩ := by
        unfold Paginator.fetchProducts
        rw [hnil]
        rfl
      rw [hfetch, loadMoreRepeat_none, hnil]
    · have hpos : 0 < (Paginator.sortProducts coll).length := Nat.pos_of_ne_zero h0
      have hitems : ((Paginator.sortProducts coll).take PAGE_SIZE).length
          = min PAGE_SIZE (Paginator.sortProducts coll).length := by
        rw [List.length_take]
      have hipos : 0 < ((Paginator.sortProducts coll).take PAGE_SIZE).length := by
        rw [hitems]
        have : (0 : Nat) < PAGE_SIZE := by decide
        omega
      have hfetch : Paginator.fetchProducts coll =
          ⟨(Paginator.sortProducts coll).take PAGE_SIZE,
            some (((Paginator.sortProducts coll).take PAGE_SIZE).length - 1)⟩ := by
        simp only [Paginator.fetchProducts]
        rw [if_neg (Nat.pos_iff_ne_zero.mp hipos)]
      rw [hfetch]
      apply loadMoreRepeat_complete
      · apply (List.take_eq_take).mpr
        rw [List.length_take]
        omega
      · rw [hitems]
        have : (0 : Nat) < PAGE_SIZE := by decide
        omega
      · rw [hitems, hlen]
        omega
  rw [hfinal]
  refine ⟨hperm, ?_, rfl⟩
  exact hsorted.imp (fun h => h)

/-- C7 (counterexample): the reviews featured toggle and the product create
await their remote write FIRST; the first event of their traces is the
remote call, not the local state transition, so during the remote call the
locally visible state still equals the pre-mutation value. -/
theorem c7_remote_before_local_cases :
    (Reviews.toggleFeatured [mkReview "r1" false] (mkReview "r1" false) true).trace.head?
        = some StoreEv.remoteWrite ∧
    (Products.handleSave [] none formOk 10 "x" true []).trace.head?
        = some StoreEv.remoteWrite ∧
    StoreEv.remoteWrite ≠ StoreEv.localWrite := by
  decide

/-- C7 (amended): in the products screen, update, delete and featured
toggle write the local state first and then issue the remote write; the
product create and the reviews featured toggle issue the remote write first
and write local state only after it succeeds. -/
theorem c7_local_state_ordering :
    (∀ (ps : List Product) (p : Product) (ok : Bool),
      (Products.toggleFeatured ps p ok).rejected = false →
      (Products.toggleFeatured ps p ok).trace.take 2
        = [StoreEv.localWrite, StoreEv.remoteWrite]) ∧
    (∀ (ps : List Product) (tid : String) (ok : Bool),
      (Products.handleDelete ps (some tid) ok).trace.take 2
        = [StoreEv.localWrite, StoreEv.remoteWrite]) ∧
    (∀ (ps : List Product) (e : Product) (form : Products.FormState) (now : Nat)
        (newId : String) (ok : Bool) (refetch : List Product),
      Products.validate form = true →
      (Products.handleSave ps (some e) form now newId ok refetch).trace.take 2
        = [StoreEv.localWrite, StoreEv.remoteWrite]) ∧
    (∀ (ps : List Product) (form : Products.FormState) (now : Nat)
        (newId : String) (ok : Bool) (refetch : List Product),
      Products.validate form = true →
      (Products.handleSave ps none form now newId ok refetch).trace.head?
        = some StoreEv.remoteWrite) ∧
    (∀ (rs : List Review) (r : Review) (ok : Bool),
      (Reviews.toggleFeatured rs r ok).rejected = false →
      (Reviews.toggleFeatured rs r ok).trace.head? = some StoreEv.remoteWrite) := by
  refine ⟨?_, ?_, ?_, ?_, ?_⟩
  · intro ps p ok hrej
    unfold Products.toggleFeatured at hrej ⊢
    by_cases hg : (!p.featured && decide (featuredCount ps ≥ MAX_FEATURED)) = true
    · rw [if_pos hg] at hrej
      cases hrej
    · rw [if_neg hg]
      cases ok <;> rfl
  · intro ps tid ok
    cases ok <;> rfl
  · intro ps e form now newId ok refetch hval
    unfold Products.handleSave
    rw [if_pos hval]
    cases ok <;> rfl
  · intro ps form now newId ok refetch hval
    unfold Products.handleSave
    rw [if_pos hval]
    cases ok <;> rfl
  · intro rs r ok hrej
    unfold Reviews.toggleFeatured at hrej ⊢
    by_cases hg : (!r.featured && decide (reviewFeaturedCount rs ≥ 6)) = true
    · rw [if_pos hg] at hrej
      cases hrej
    · rw [if_neg hg]
      cases ok <;> rfl

/-- C7 (witness): the ordering statements evaluated on concrete inputs:
a permitted product toggle, a delete, a valid edit, a valid create and a
permitted review toggle. -/
theorem c7_local_state_ordering_witness :
    (Products.toggleFeatured [mkProd "p2" 2 false] (mkProd "p2" 2 false) true).trace.take 2
        = [StoreEv.localWrite, StoreEv.remoteWrite] ∧
    (Products.handleDelete [mkProd "p2" 2 false] (some "p2") true).trace.take 2
        = [StoreEv.localWrite, StoreEv.remoteWrite] ∧
    (Products.handleSave [mkProd "p2" 2 false] (some (mkProd "p2" 2 false))
        formOk 11 "z" true []).trace.take 2 = [StoreEv.localWrite, StoreEv.remoteWrite] ∧
    (Products.handleSave [] none formOk 11 "z" true []).trace.head?
        = some StoreEv.remoteWrite ∧
    (Reviews.toggleFeatured [mkReview "r2" false] (mkReview "r2" false) true).trace.head?
        = some StoreEv.remoteWrite := by
  refine ⟨?_, ?_, ?_, ?_, ?_⟩
  · exact c7_local_state_ordering.1 [mkProd "p2" 2 false] (mkProd "p2" 2 false) true
      (by decide)
  · exact c7_local_state_ordering.2.1 [mkProd "p2" 2 false] "p2" true
  · exact c7_local_state_ordering.2.2.1 [mkProd "p2" 2 false] (mkProd "p2" 2 false)
      formOk 11 "z" true [] (by decide)
  · exact c7_local_state_ordering.2.2.2.1 [] formOk 11 "z" true [] (by decide)
  · exact c7_local_state_ordering.2.2.2.2 [mkReview "r2" false] (mkReview "r2" false) true
      (by decide)

/-- C8 (counterexample): a failing availability query is indistinguishable
from an occupied slot: `checkAvailability` returns exactly the same value
(false) for a store error as for a genuine conflict, so no distinct
Unknown result exists. -/
theorem c8_error_equals_conflict :
    ReservationPage.checkAvailability [] true
        ⟨"a", "1", "2025-01-01", "18:00", 2⟩ =
      ReservationPage.checkAvailability
        [⟨"b", "2", "2025-01-01", "18:00", 4, 0⟩] false
        ⟨"a", "1", "2025-01-01", "18:00", 2⟩ ∧
    (ReservationPage.checkAvailability [] true
        ⟨"a", "1", "2025-01-01", "18:00", 2⟩).available = false := by
  decide

/-- C8 (amended): when the availability query fails on a non-empty (date,
time), `checkAvailability` returns false, the same boolean as a slot
conflict rather than a distinct Unknown value, and the submission aborts:
no reservation create is issued and the error banner is shown. -/
theorem c8_query_error_blocks_commit :
    ∀ (store : List ReservationPage.Reservation) (fd : ReservationPage.ReservationData)
      (createOk : Bool) (now : Nat),
      fd.date ≠ "" → fd.time ≠ "" →
      ReservationPage.checkAvailability store true fd = ⟨false, true⟩ ∧
      (ReservationPage.handleSubmit store true createOk fd now).createIssued = false ∧
      (ReservationPage.handleSubmit store true createOk fd now).errorShown = true := by
  intro store fd createOk now hd ht
  have hcheck : ReservationPage.checkAvailability store true fd = ⟨false, true⟩ := by
    unfold ReservationPage.checkAvailability
    rw [if_neg (by rintro (h | h) <;> [exact hd h; exact ht h])]
    rfl
  refine ⟨hcheck, ?_, ?_⟩ <;>
    · unfold ReservationPage.handleSubmit
      rw [hcheck]
      rfl

/-- C8 (witness): the amended claim evaluated on a concrete form with a
failing query. -/
theorem c8_query_error_blocks_commit_witness :
    ReservationPage.checkAvailability [] true ⟨"a", "1", "2025-01-02", "19:00", 2⟩
        = ⟨false, true⟩ ∧
    (ReservationPage.handleSubmit [] true true ⟨"a", "1", "2025-01-02", "19:00", 2⟩ 0).createIssued
        = false ∧
    (ReservationPage.handleSubmit [] true true ⟨"a", "1", "2025-01-02", "19:00", 2⟩ 0).errorShown
        = true :=
  c8_query_error_blocks_commit [] ⟨"a", "1", "2025-01-02", "19:00", 2⟩ true 0
    (by decide) (by decide)

/-- C9 (counterexample): two featured toggles issued in order on the same
product, the second with the entity value captured before the first applied
(as happens when both events fire from the same render), leave the flag set
instead of restored: the second mutation is applied to the captured
pre-M1 snapshot, not to the result of M1, and no queueing exists. -/
theorem c9_second_toggle_uses_stale_snapshot :
    (Products.toggleFeatured [mkProd "p1" 1 false] (mkProd "p1" 1 false) true).products
        = [mkProd "p1" 1 true] ∧
    (Products.toggleFeatured
        (Products.toggleFeatured [mkProd "p1" 1 false] (mkProd "p1" 1 false) true).products
        (mkProd "p1" 1 false) true).products = [mkProd "p1" 1 true] ∧
    (Products.toggleFeatured
        (Products.toggleFeatured [mkProd "p1" 1 false] (mkProd "p1" 1 false) true).products
        (mkProd "p1" 1 false) true).products ≠
      (Products.toggleFeatured [mkProd "p1" 1 false] (mkProd "p1" 1 false) true).products.map
        (fun q => if q.id = "p1" then { q with featured := !q.featured } else q) := by
  decide

/-- Local result of a permitted products toggle: when the guard does not
fire, the local list is mapped with the captured `updated` value whatever
the outcome of the remote call. -/
lemma toggleFeatured_products_of_not_capped (ps : List Product) (p : Product) (ok : Bool)
    (h : (!p.featured && decide (featuredCount ps ≥ MAX_FEATURED)) = false) :
    (Products.toggleFeatured ps p ok).products =
      ps.map (fun q => if q.id = p.id then { p with featured := !p.featured } else q) := by
  unfold Products.toggleFeatured
  rw [if_neg (by simp [h])]
  cases ok <;> rfl

/-- C9 (amended): mutations on the same entity are not serialized; a second
toggle issued with the stale captured entity recomputes the same `updated`
value from the captured snapshot, so its result equals the result of the first
toggle (rather than the claimed application of the transform to the result
of M1), whatever the completion order of the two remote calls. -/
theorem c9_no_per_entity_serialization :
    ∀ (ps : List Product) (p : Product) (ok1 ok2 : Bool),
      (ps.map (fun q => q.id)).Nodup → p ∈ ps → p.featured = false →
      featuredCount ps + 1 < MAX_FEATURED →
      (Products.toggleFeatured (Products.toggleFeatured ps p ok1).products p ok2).products
        = (Products.toggleFeatured ps p ok1).products := by
  intro ps p ok1 ok2 hnd hmem hf hcount
  have hg1 : (!p.featured && decide (featuredCount ps ≥ MAX_FEATURED)) = false := by
    rw [hf]
    simp only [Bool.not_false, Bool.true_and, decide_eq_false_iff_not]
    omega
  have hm1 : (Products.toggleFeatured ps p ok1).products =
      ps.map (fun q => if q.id = p.id then { p with featured := true } else q) := by
    rw [toggleFeatured_products_of_not_capped ps p ok1 hg1]
    simp only [hf, Bool.not_false]
  have hcount1 : featuredCount ((Products.toggleFeatured ps p ok1).products)
      = featuredCount ps + 1 := by
    rw [hm1]
    exact featuredCount_set_featured p ps hnd hmem hf
  have hg2 : (!p.featured &&
      decide (featuredCount ((Products.toggleFeatured ps p ok1).products) ≥ MAX_FEATURED))
      = false := by
    rw [hf, hcount1]
    simp only [Bool.not_false, Bool.true_and, decide_eq_false_iff_not]
    omega
  have hm2 : (Products.toggleFeatured (Products.toggleFeatured ps p ok1).products p ok2).products
      = ((Products.toggleFeatured ps p ok1).products).map
          (fun q => if q.id = p.id then { p with featured := true } else q) := by
    rw [toggleFeatured_products_of_not_capped _ p ok2 hg2]
    simp only [hf, Bool.not_false]
  rw [hm2, hm1, List.map_map]
  apply List.map_congr_left
  intro q _
  simp only [Function.comp]
  by_cases hq : q.id = p.id
  · rw [if_pos hq, if_pos rfl]
  · rw [if_neg hq, if_neg hq]

/-- C9 (witness): the amended statement evaluated on a single unfeatured
product toggled twice with the stale captured value. -/
theorem c9_no_per_entity_serialization_witness :
    (Products.toggleFeatured
        (Products.toggleFeatured [mkProd "p3" 3 false] (mkProd "p3" 3 false) true).products
        (mkProd "p3" 3 false) true).products
      = (Products.toggleFeatured [mkProd "p3" 3 false] (mkProd "p3" 3 false) true).products :=
  c9_no_per_entity_serialization [mkProd "p3" 3 false] (mkProd "p3" 3 false) true true
    (by decide) (by decide) (by decide) (by decide)

/-- C10 (confirmed): with an empty date or empty time, `checkAvailability`
returns true without querying the reservation collection at all, and the
submission proceeds directly to the reservation create. -/
theorem c10_empty_fields_skip_query :
    ∀ (store : List ReservationPage.Reservation) (queryFail createOk : Bool)
      (fd : ReservationPage.ReservationData) (now : Nat),
      fd.date = "" ∨ fd.time = "" →
      ReservationPage.checkAvailability store queryFail fd = ⟨true, false⟩ ∧
      (ReservationPage.handleSubmit store queryFail createOk fd now).createIssued = true := by
  intro store queryFail createOk fd now h
  have hcheck : ReservationPage.checkAvailability store queryFail fd = ⟨true, false⟩ := by
    unfold ReservationPage.checkAvailability
    rw [if_pos h]
  refine ⟨hcheck, ?_⟩
  unfold ReservationPage.handleSubmit
  rw [hcheck]
  cases createOk <;> rfl

/-- C10 (witness): the empty-date form proceeds straight to the create even
though the query would have failed. -/
theorem c10_empty_fields_skip_query_witness :
    ReservationPage.checkAvailability [] true ⟨"a", "1", "", "18:00", 2⟩ = ⟨true, false⟩ ∧
    (ReservationPage.handleSubmit [] true true ⟨"a", "1", "", "18:00", 2⟩ 0).createIssued
        = true :=
  c10_empty_fields_skip_query [] true true ⟨"a", "1", "", "18:00", 2⟩ 0 (Or.inl rfl)
